import Mathlib

/-!
Shallow embedding of `pulsar/apps/test/utils.py` and
`pulsar/apps/pulsardjp/models.py` (repository msornay/pulsar), together
with theorems settling the specification claims about them.

Modelling conventions:
  * Python exceptions are modelled with `Except`; a function that cannot
    let an exception escape has a plain result type.
  * Mutable object state is passed explicitly: a function that may touch
    a collection takes it as an argument and returns the updated value.
  * Python object identity is modelled by a `Nat` tag drawn from an
    allocation counter that is threaded through calls which construct
    new objects.
  * Python string formatting `"%s x %s" % (a, b)` is modelled by string
    concatenation, and the Python substring test `a in b` by
    `List.IsInfix` on the character lists.
-/

/- ## Execution control annotations (utils.py lines 97-109) -/

/-- A test unit (function or method) carrying the optional
`_test_timeout` attribute set by the `test_timeout` decorator;
`none` models an absent attribute. -/
structure TestUnit where
  test_timeout : Option Nat
deriving DecidableEq

/-- `test_timeout.__call__`: stores the timeout on the decorated unit. -/
def test_timeout_call (timeout : Nat) (f : TestUnit) : TestUnit :=
  { f with test_timeout := some timeout }

/-- `get_test_timeout(o, timeout)`: reads `getattr(o, '_test_timeout', 0)`
and returns `max(val, timeout)`.  The second component is the state of
`o` after the call; the source only reads the attribute, so it is
returned unchanged. -/
def get_test_timeout (o : TestUnit) (timeout : Nat) : Nat × TestUnit :=
  let val := o.test_timeout.getD 0
  (max val timeout, o)

/-- Spec-side definition for the refinement claim C4, following the
spec text: `effectiveTimeout(unit, baseline)` returns
`max(unit.timeoutOverride or 0, baseline)`. -/
def effectiveTimeout (unit : TestUnit) (baseline : Nat) : Nat :=
  max (unit.test_timeout.getD 0) baseline

/- ## AsyncAssert (utils.py lines 112-161) -/

/-- An `AsyncAssert` object: `oid` is its Python object identity,
`test` is the identity of the wrapped test instance (the `test`
argument of `__init__`), `none` when the descriptor wraps no
instance. -/
structure AsyncAssertObj where
  oid : Nat
  test : Option Nat
deriving DecidableEq

/-- `AsyncAssert.__get__(self, instance, instance_type)`: when accessed
through an instance it evaluates `AsyncAssert(instance)` — a fresh
object allocation — and otherwise returns the descriptor itself.  The
`Nat` argument and result thread the allocation counter that models
Python object identity. -/
def AsyncAssert_get (self : AsyncAssertObj) (inst : Option Nat) (nextOid : Nat) :
    AsyncAssertObj × Nat :=
  match inst with
  | some i => ({ oid := nextOid, test := some i }, nextOid + 1)
  | none => (self, nextOid)

/-- An exception class, identified by the text Python would print for
it (`'%s' % error`). -/
structure ErrClass where
  name : String
deriving DecidableEq

/-- A raised exception value; all modelled exceptions derive from
Python `Exception`, as in the harness error taxonomy. -/
structure Exc where
  cls : String
deriving DecidableEq

/-- Outcome of `yield from callable(*args, **kwargs)` inside
`assertRaises`: either it runs to completion (the value is discarded by
the source) or it raises. -/
inductive CallOutcome where
  | ok
  | raised (e : Exc)
deriving DecidableEq

/-- `AsyncAssert.assertRaises(error, callable, ...)`.  `isInst e c`
models Python except-clause matching `isinstance(e, c)` (an exact or
subtype match); `callable` is the text Python prints for the callable.
The body runs the callable; an exception matched by `error` returns
silently; any other exception, and also normal completion, raise
`self.test.failureException('%s not raised by %s' % (error, callable))`,
modelled by `Except.error` carrying that message. -/
def assertRaises (isInst : Exc → ErrClass → Bool) (error : ErrClass)
    (callable : String) (outcome : CallOutcome) : Except String Unit :=
  match outcome with
  | CallOutcome.raised e =>
      if isInst e error then Except.ok ()
      else Except.error (error.name ++ " not raised by " ++ callable)
  | CallOutcome.ok =>
      Except.error (error.name ++ " not raised by " ++ callable)

/- ## ActorTestMixin (utils.py lines 164-203) -/

/-- A Python exception as seen by the mixin: either a unittest
failure (`failureException`, raised by the assert methods) or any
other exception. -/
inductive PyErr where
  | failure (msg : String)
  | exc (name : String)
deriving DecidableEq

/-- A resolved actor proxy.  `aid` is the actor identifier; proxies
compare equal exactly when they refer to the same actor, so
`proxy.proxy == proxy` is modelled by comparing `proxy_aid` (the
identifier of the proxy returned by the `.proxy` attribute) with
`aid`; `cfg` is the configuration mapping, truthy iff non-empty. -/
structure Proxy where
  aid : String
  proxy_aid : String
  cfg : List (String × String)
deriving DecidableEq

deriving instance DecidableEq for Except

/-- Modelled from the spec: the value returned by `pulsar.spawn`
(repository code outside the embedded sources).  Per the spec it is a
future exposing a synchronously available identifier `aid` (truthy iff
non-empty), is expected to be a `Future` instance (`is_future`), and
resolves to a proxy or raises. -/
structure SpawnRequest where
  aid : String
  is_future : Bool
  result : Except PyErr Proxy
deriving DecidableEq

/-- `concurrency or self.concurrency`: Python `or` falls through on
falsy values (absent argument or empty string). -/
def resolve_concurrency (concurrency : Option String) (self_concurrency : String) : String :=
  match concurrency with
  | some c => if c = "" then self_concurrency else c
  | none => self_concurrency

/-- `ActorTestMixin.spawn_actor`.  `spawn` models `pulsar.spawn` as a
function from the chosen concurrency to the returned request;
`all_spawned` is the tracked collection `self.all_spawned` before the
call.  The result pairs the outcome (returned proxy, or the raised
exception) with the tracked collection after the call.  The source
order is: assert `ad.aid` truthy, assert `ad` is a `Future`, await
`ad`, append the proxy to `self.all_spawned`, then assert
`proxy.aid == ad.aid`, `proxy.proxy == proxy` and `proxy.cfg` truthy. -/
def spawn_actor (spawn : String → SpawnRequest) (concurrency : Option String)
    (self_concurrency : String) (all_spawned : List Proxy) :
    Except PyErr Proxy × List Proxy :=
  let conc := resolve_concurrency concurrency self_concurrency
  let ad := spawn conc
  if ad.aid = "" then (Except.error (PyErr.failure "assertTrue aid"), all_spawned)
  else if ad.is_future = false then
    (Except.error (PyErr.failure "assertIsInstance Future"), all_spawned)
  else
    match ad.result with
    | Except.error e => (Except.error e, all_spawned)
    | Except.ok proxy =>
        let spawned := all_spawned ++ [proxy]
        if proxy.aid ≠ ad.aid then
          (Except.error (PyErr.failure "assertEqual aid"), spawned)
        else if proxy.proxy_aid ≠ proxy.aid then
          (Except.error (PyErr.failure "assertEqual proxy"), spawned)
        else if proxy.cfg = [] then
          (Except.error (PyErr.failure "assertTrue cfg"), spawned)
        else (Except.ok proxy, spawned)

/-- `ActorTestMixin.stop_actors(*args)`: chooses `args or
self.all_spawned`, sends a stop message to each chosen proxy and
returns the issued messages (`multi_async` over the sends) together
with the tracked collection after the call. -/
def stop_actors (args : List Proxy) (all_spawned : List Proxy) :
    List (Proxy × String) × List Proxy :=
  let all := if args.isEmpty then all_spawned else args
  (all.map (fun a => (a, "stop")), all_spawned)

/-- `ActorTestMixin.tearDown`: returns `self.stop_actors()`. -/
def tearDown (all_spawned : List Proxy) : List (Proxy × String) × List Proxy :=
  stop_actors [] all_spawned

/- ## check_server (utils.py lines 206-227) -/

/-- Python substring test `needle in haystack` on strings. -/
def strContains (haystack needle : String) : Bool :=
  decide (needle.toList <:+: haystack.toList)

/-- Address normalisation inside `check_server`: `if ('%s://' % name)
not in addr: addr = '%s://%s' % (name, addr)`.  Note the source tests
substring containment, not a prefix. -/
def scheme_addr (name addr : String) : String :=
  if strContains addr (name ++ "://") then addr
  else name ++ "://" ++ addr

/-- Modelled from the spec: the external collaborators used by
`check_server` — the process-wide configuration lookup
(`get_actor().cfg.get`), the store factory `create_store` (which per
the spec raises a configuration error, `ImproperlyConfigured`, for a
malformed address; clients are identified by a `Nat` handle) and the
liveness call `loop.run_until_complete(store.ping())`, which either
returns a value or raises. -/
structure ProbeEnv where
  cfg : String → Option String
  create_store : String → Except Unit Nat
  ping : Nat → Except String Bool

/-- `check_server(name)`: looks up the `'<name>_server'` configuration
value (absent or falsy empty string gives `False`), normalises the
address, builds the store — `ImproperlyConfigured` gives `False` — and
runs the ping: `True` on completion, `False` on any exception.  The
plain `Bool` result type reflects that no exception escapes. -/
def check_server (env : ProbeEnv) (name : String) : Bool :=
  match env.cfg (name ++ "_server") with
  | none => false
  | some addr =>
      if addr = "" then false
      else
        match env.create_store (scheme_addr name addr) with
        | Except.error _ => false
        | Except.ok store =>
            match env.ping store with
            | Except.ok _ => true
            | Except.error _ => false

/- ## dont_run_with_thread (utils.py lines 230-240) -/

/-- A test object as seen by the skip machinery: `payload` stands for
everything else on the object, `unittest_skip` and
`unittest_skip_why` model the `__unittest_skip__` and
`__unittest_skip_why__` attributes read by `skip_test` and
`skip_reason` (absent attributes default to `false` and `""`). -/
structure TestObj where
  payload : String
  unittest_skip : Bool
  unittest_skip_why : String
deriving DecidableEq

/-- `skip_test(o)`: reads `getattr(o, '__unittest_skip__', False)`. -/
def skip_test (o : TestObj) : Bool :=
  o.unittest_skip

/-- `skip_reason(o)`: reads `getattr(o, '__unittest_skip_why__', '')`. -/
def skip_reason (o : TestObj) : String :=
  o.unittest_skip_why

/-- The current actor context, exposing the configured concurrency
mode. -/
structure ActorCtx where
  concurrency : String
deriving DecidableEq

/-- `unittest.skipUnless(condition, reason)` applied to a test object
(standard library behaviour): with a true condition the object is
returned unchanged; otherwise it is marked skipped with the reason. -/
def skipUnless (condition : Bool) (reason : String) (obj : TestObj) : TestObj :=
  if condition then obj
  else { obj with unittest_skip := true, unittest_skip_why := reason }

/-- `dont_run_with_thread(obj)`: reads `pulsar.get_actor()` (modelled
as an `Option ActorCtx` argument); with no actor the object is
returned as is, otherwise `unittest.skipUnless(actor.cfg.concurrency
== 'process', 'Run only when concurrency is process')` is applied. -/
def dont_run_with_thread (actor : Option ActorCtx) (obj : TestObj) : TestObj :=
  match actor with
  | some a =>
      skipUnless (a.concurrency = "process") "Run only when concurrency is process" obj
  | none => obj

/- ## Task.get_task (models.py lines 79-88) -/

/-- A stored task row: its primary key `id` and the value of the
completion predicate `task.done()` (defined on the external
`tasks.Task` base class, modelled as an observable boolean). -/
structure DbTask where
  id : String
  done : Bool
deriving DecidableEq

/-- `cls.objects.get(id=id)` of the external ORM: returns the row with
the given primary key or raises `cls.DoesNotExist` (the error case). -/
def objects_get (store : List DbTask) (id : String) : Except Unit DbTask :=
  match store.find? (fun t => t.id == id) with
  | some t => Except.ok t
  | none => Except.error ()

/-- `task.delete()` of the external ORM: removes the row with the
task's primary key from the store. -/
def task_delete (store : List DbTask) (id : String) : List DbTask :=
  store.filter (fun t => t.id != id)

/-- `Task.get_task(cls, id, remove=False)`: fetches the row, catching
`DoesNotExist` (which yields `None`); when `remove and task.done()` it
deletes the row and falls through to `None`, otherwise it returns the
task.  The pair carries the store after the call. -/
def get_task (store : List DbTask) (id : String) (remove : Bool) :
    Option DbTask × List DbTask :=
  match objects_get store id with
  | Except.error _ => (none, store)
  | Except.ok task =>
      if remove && task.done then (none, task_delete store id)
      else (some task, store)

/- ## Theorems -/

/-- Claim C4: `get_test_timeout` computes `max(override or 0, baseline)`
— it agrees with the spec-side `effectiveTimeout`, dominates both
inputs, yields 30 for an override of 30 with baseline 10 and 10 with no
override and baseline 10 — and it returns the unit unchanged. -/
theorem get_test_timeout_correct :
    (∀ (o : TestUnit) (timeout : Nat),
      (get_test_timeout o timeout).1 = effectiveTimeout o timeout ∧
      (get_test_timeout o timeout).2 = o) ∧
    (∀ (o : TestUnit) (timeout : Nat),
      o.test_timeout.getD 0 ≤ (get_test_timeout o timeout).1 ∧
      timeout ≤ (get_test_timeout o timeout).1) ∧
    (∀ u : TestUnit, (get_test_timeout (test_timeout_call 30 u) 10).1 = 30) ∧
    (∀ u : TestUnit, u.test_timeout = none → (get_test_timeout u 10).1 = 10) := by
  refine ⟨fun o t => ⟨rfl, rfl⟩, fun o t => ⟨Nat.le_max_left _ _, Nat.le_max_right _ _⟩,
    fun u => rfl, fun u h => ?_⟩
  simp [get_test_timeout, h]

/-- Witness for C4 at concrete units. -/
theorem get_test_timeout_correct_witness :
    (get_test_timeout (test_timeout_call 30 (TestUnit.mk none)) 10).1 = 30 ∧
    (get_test_timeout (TestUnit.mk none) 10).1 = 10 :=
  ⟨get_test_timeout_correct.2.2.1 (TestUnit.mk none),
   get_test_timeout_correct.2.2.2 (TestUnit.mk none) rfl⟩

/-- Claim C9: `stop_actors` — with or without explicit handles — and
`tearDown` leave the tracked collection unchanged, and `tearDown` is
exactly `stop_actors` with no arguments; the messages issued are one
stop per chosen handle. -/
theorem stop_actors_frame (args all_spawned : List Proxy) :
    (stop_actors args all_spawned).2 = all_spawned ∧
    (tearDown all_spawned).2 = all_spawned ∧
    tearDown all_spawned = stop_actors [] all_spawned ∧
    (stop_actors args all_spawned).1 =
      (if args.isEmpty then all_spawned else args).map (fun a => (a, "stop")) :=
  ⟨rfl, rfl, rfl, rfl⟩

/-- Claim C8: with no actor context `dont_run_with_thread` returns the
object unmodified; with a context in process mode it also returns it
unmodified; with a context in any other mode it returns the object
marked skipped with the human-readable reason, leaving the rest of the
object intact. -/
theorem dont_run_with_thread_correct (obj : TestObj) (a : ActorCtx) :
    dont_run_with_thread none obj = obj ∧
    (a.concurrency = "process" → dont_run_with_thread (some a) obj = obj) ∧
    (a.concurrency ≠ "process" →
      skip_test (dont_run_with_thread (some a) obj) = true ∧
      skip_reason (dont_run_with_thread (some a) obj) =
        "Run only when concurrency is process" ∧
      (dont_run_with_thread (some a) obj).payload = obj.payload) := by
  refine ⟨rfl, fun h => ?_, fun h => ?_⟩
  · simp [dont_run_with_thread, skipUnless, h]
  · simp [dont_run_with_thread, skipUnless, skip_test, skip_reason, h]

/-- Witness for C8: a thread-mode context marks the object skipped, a
process-mode context leaves it alone. -/
theorem dont_run_with_thread_correct_witness :
    dont_run_with_thread (some (ActorCtx.mk "process")) (TestObj.mk "t" false "") =
      TestObj.mk "t" false "" ∧
    skip_test (dont_run_with_thread (some (ActorCtx.mk "thread"))
      (TestObj.mk "t" false "")) = true :=
  ⟨(dont_run_with_thread_correct (TestObj.mk "t" false "") (ActorCtx.mk "process")).2.1 rfl,
   ((dont_run_with_thread_correct (TestObj.mk "t" false "") (ActorCtx.mk "thread")).2.2
      (by decide)).1⟩

/-- Claim C2: `assertRaises` returns silently when the callable raises
an exception matching the expected class; when the callable completes
without raising it fails with the "not raised" message; and when it
raises any non-matching exception it fails with that same message
rather than re-raising. -/
theorem assertRaises_correct (isInst : Exc → ErrClass → Bool) (error : ErrClass)
    (callable : String) (outcome : CallOutcome) :
    (∀ e, outcome = CallOutcome.raised e → isInst e error = true →
      assertRaises isInst error callable outcome = Except.ok ()) ∧
    (outcome = CallOutcome.ok →
      assertRaises isInst error callable outcome =
        Except.error (error.name ++ " not raised by " ++ callable)) ∧
    (∀ e, outcome = CallOutcome.raised e → isInst e error = false →
      assertRaises isInst error callable outcome =
        Except.error (error.name ++ " not raised by " ++ callable)) := by
  refine ⟨fun e ho hi => ?_, fun ho => ?_, fun e ho hi => ?_⟩
  · subst ho; simp [assertRaises, hi]
  · subst ho; rfl
  · subst ho; simp [assertRaises, hi]

/-- Witness for C2 with a subclass-style instance check at concrete
exceptions: matching raise, no raise, and a non-matching raise. -/
theorem assertRaises_correct_witness :
    assertRaises (fun e c => e.cls == c.name) (ErrClass.mk "ValueError") "f"
      (CallOutcome.raised (Exc.mk "ValueError")) = Except.ok () ∧
    assertRaises (fun e c => e.cls == c.name) (ErrClass.mk "ValueError") "f"
      CallOutcome.ok =
      Except.error ((ErrClass.mk "ValueError").name ++ " not raised by " ++ "f") ∧
    assertRaises (fun e c => e.cls == c.name) (ErrClass.mk "ValueError") "f"
      (CallOutcome.raised (Exc.mk "TypeError")) =
      Except.error ((ErrClass.mk "ValueError").name ++ " not raised by " ++ "f") :=
  ⟨(assertRaises_correct (fun e c => e.cls == c.name) (ErrClass.mk "ValueError") "f"
      (CallOutcome.raised (Exc.mk "ValueError"))).1 (Exc.mk "ValueError") rfl (by decide),
   (assertRaises_correct (fun e c => e.cls == c.name) (ErrClass.mk "ValueError") "f"
      CallOutcome.ok).2.1 rfl,
   (assertRaises_correct (fun e c => e.cls == c.name) (ErrClass.mk "ValueError") "f"
      (CallOutcome.raised (Exc.mk "TypeError"))).2.2 (Exc.mk "TypeError") rfl (by decide)⟩

/-- Counterexample to claim C7 as stated: two successive accesses of
the descriptor through the same instance return objects with distinct
identities, so the proxy is not one cached object per instance. -/
theorem AsyncAssert_get_counterexample :
    ((AsyncAssert_get (AsyncAssertObj.mk 0 none) (some 5) 1).1).oid ≠
      ((AsyncAssert_get (AsyncAssertObj.mk 0 none) (some 5)
        ((AsyncAssert_get (AsyncAssertObj.mk 0 none) (some 5) 1).2)).1).oid := by
  decide

/-- Claim C7 (amended): every access through an instance constructs a
fresh proxy wrapping that instance — the returned object carries the
next free identity and the allocator advances, so repeated accesses
yield distinct objects — while access with no instance returns the
descriptor itself unchanged. -/
theorem AsyncAssert_get_correct (self : AsyncAssertObj) (i : Nat) (n : Nat) :
    (AsyncAssert_get self (some i) n).1.test = some i ∧
    (AsyncAssert_get self (some i) n).1.oid = n ∧
    (AsyncAssert_get self (some i) n).2 = n + 1 ∧
    AsyncAssert_get self none n = (self, n) :=
  ⟨rfl, rfl, rfl, rfl⟩

/-- Counterexample to claim C3 as stated: a spawn whose resolved proxy
fails the identifier assertion aborts with a test failure, yet the
resolved handle is already in the tracked collection — the append
happens before the assertions on the resolved proxy, so a failing
assertion does not leave the collection unchanged. -/
theorem spawn_actor_counterexample :
    (spawn_actor (fun _ => SpawnRequest.mk "a" true
        (Except.ok (Proxy.mk "b" "b" [("param", "v")]))) none "thread" []).1 =
      Except.error (PyErr.failure "assertEqual aid") ∧
    (spawn_actor (fun _ => SpawnRequest.mk "a" true
        (Except.ok (Proxy.mk "b" "b" [("param", "v")]))) none "thread" []).2 =
      [Proxy.mk "b" "b" [("param", "v")]] := by
  constructor <;> decide

/-- Claim C3 (amended): failures before or at the suspension — falsy
pre-suspension identifier, a non-`Future` request, or an exception
while awaiting — leave the tracked collection unchanged; but once the
proxy resolves it is appended before the assertions on it run, so the
collection grows by that handle whether or not those assertions
pass. -/
theorem spawn_actor_append_order (spawn : String → SpawnRequest)
    (concurrency : Option String) (self_concurrency : String)
    (all_spawned : List Proxy) :
    (((spawn (resolve_concurrency concurrency self_concurrency)).aid = "" ∨
      (spawn (resolve_concurrency concurrency self_concurrency)).is_future = false ∨
      (∃ e, (spawn (resolve_concurrency concurrency self_concurrency)).result =
        Except.error e)) →
      (spawn_actor spawn concurrency self_concurrency all_spawned).2 = all_spawned) ∧
    (∀ p, (spawn (resolve_concurrency concurrency self_concurrency)).aid ≠ "" →
      (spawn (resolve_concurrency concurrency self_concurrency)).is_future = true →
      (spawn (resolve_concurrency concurrency self_concurrency)).result = Except.ok p →
      (spawn_actor spawn concurrency self_concurrency all_spawned).2 =
        all_spawned ++ [p]) := by
  constructor
  · intro h
    simp only [spawn_actor]
    split_ifs with h1 h2
    · rfl
    · rfl
    · rcases h with h | h | ⟨e, h⟩
      · exact absurd h h1
      · exact absurd h (by simpa using h2)
      · rw [h]
  · intro p haid hfut hres
    simp only [spawn_actor]
    rw [if_neg haid, if_neg (by simp [hfut])]
    simp only [hres]
    split_ifs <;> rfl

/-- Witness for the amended C3: a resolved proxy that fails the
configuration assertion is nevertheless appended. -/
theorem spawn_actor_append_order_witness :
    (spawn_actor (fun _ => SpawnRequest.mk "a" true
        (Except.ok (Proxy.mk "a" "x" []))) none "thread" []).2 =
      [] ++ [Proxy.mk "a" "x" []] :=
  (spawn_actor_append_order (fun _ => SpawnRequest.mk "a" true
      (Except.ok (Proxy.mk "a" "x" []))) none "thread" []).2
    (Proxy.mk "a" "x" []) (by decide) rfl rfl

/-- Claim C6: when `spawn_actor` succeeds, the tracked collection after
the call is the previous collection with the returned handle appended:
one more record, whose last entry is the returned handle and whose
identifier is the handle's identifier. -/
theorem spawn_actor_success_tracks (spawn : String → SpawnRequest)
    (concurrency : Option String) (self_concurrency : String)
    (all_spawned spawned2 : List Proxy) (p : Proxy)
    (h : spawn_actor spawn concurrency self_concurrency all_spawned =
      (Except.ok p, spawned2)) :
    spawned2 = all_spawned ++ [p] ∧
    spawned2.length = all_spawned.length + 1 ∧
    spawned2.getLast? = some p ∧
    spawned2.getLast?.map Proxy.aid = some p.aid := by
  have hmain : spawned2 = all_spawned ++ [p] := by
    simp only [spawn_actor] at h
    split_ifs at h with h1 h2
    · simp at h
    · simp at h
    · rcases hr : (spawn (resolve_concurrency concurrency self_concurrency)).result
        with e | proxy
      · rw [hr] at h; simp at h
      · simp only [hr] at h
        split_ifs at h with h3 h4 h5
        · simp at h
        · simp at h
        · simp at h
        · injection h with hfst hsnd
          injection hfst with hpe
          subst hpe
          exact hsnd.symm
  refine ⟨hmain, ?_, ?_, ?_⟩
  · simp [hmain]
  · simp [hmain]
  · simp [hmain]

/-- Witness for C6 at a concrete successful spawn starting from an
empty tracked collection. -/
theorem spawn_actor_success_tracks_witness :
    [Proxy.mk "a" "a" [("k", "v")]] = [] ++ [Proxy.mk "a" "a" [("k", "v")]] ∧
    ([Proxy.mk "a" "a" [("k", "v")]] : List Proxy).length =
      ([] : List Proxy).length + 1 ∧
    ([Proxy.mk "a" "a" [("k", "v")]] : List Proxy).getLast? =
      some (Proxy.mk "a" "a" [("k", "v")]) ∧
    (([Proxy.mk "a" "a" [("k", "v")]] : List Proxy).getLast?).map Proxy.aid =
      some (Proxy.mk "a" "a" [("k", "v")]).aid :=
  spawn_actor_success_tracks (fun _ => SpawnRequest.mk "a" true
      (Except.ok (Proxy.mk "a" "a" [("k", "v")]))) none "thread" []
    [Proxy.mk "a" "a" [("k", "v")]] (Proxy.mk "a" "a" [("k", "v")]) (by decide)

/-- Counterexample to claim C5 as stated: the address `"xredis://h"`
does not start with the scheme `"redis://"`, yet `check_server`'s
normalisation leaves it unchanged instead of prepending the scheme —
the source tests substring containment, not a prefix. -/
theorem scheme_addr_counterexample :
    ¬ (("redis" ++ "://").toList <+: "xredis://h".toList) ∧
    scheme_addr "redis" "xredis://h" = "xredis://h" ∧
    scheme_addr "redis" "xredis://h" ≠ "redis" ++ "://" ++ "xredis://h" := by
  refine ⟨by decide, by decide, by decide⟩

/-- Claim C5 (amended): the scheme is prepended exactly when
`"<name>://"` does not occur anywhere in the address as a substring; an
address containing it — in particular one starting with it — is used
unchanged, and the prepended result starts with the scheme. -/
theorem scheme_addr_correct (name addr : String) :
    ((name ++ "://").toList <:+: addr.toList → scheme_addr name addr = addr) ∧
    (¬ (name ++ "://").toList <:+: addr.toList →
      scheme_addr name addr = name ++ "://" ++ addr ∧
      (name ++ "://").toList <+: (scheme_addr name addr).toList) := by
  constructor
  · intro h
    have hb : strContains addr (name ++ "://") = true := by
      simpa [strContains] using h
    simp [scheme_addr, hb]
  · intro h
    have hb : strContains addr (name ++ "://") = false := by
      simpa [strContains] using h
    have h1 : scheme_addr name addr = name ++ "://" ++ addr := by
      simp [scheme_addr, hb]
    refine ⟨h1, ?_⟩
    rw [h1]
    have h2 : (name ++ "://" ++ addr).toList = (name ++ "://").toList ++ addr.toList := by
      simp [String.toList, String.data_append]
    rw [h2]
    exact List.prefix_append _ _

/-- Witness for C5 (amended): an address already carrying the scheme is
unchanged; a bare host gets the scheme prepended. -/
theorem scheme_addr_correct_witness :
    scheme_addr "redis" "redis://h" = "redis://h" ∧
    scheme_addr "redis" "h" = "redis" ++ "://" ++ "h" :=
  ⟨(scheme_addr_correct "redis" "redis://h").1 (by decide),
   ((scheme_addr_correct "redis" "h").2 (by decide)).1⟩

/-- Claim C1: `check_server` returns `false` when the `<name>_server`
configuration value is absent (or falsy), when store construction
fails with the configuration error, and when the ping raises; and it
returns `true` exactly when the configuration value is present and the
ping completes.  Its plain `Bool` result type carries the guarantee
that no exception escapes under any of these inputs. -/
theorem check_server_correct (env : ProbeEnv) (name : String) :
    (env.cfg (name ++ "_server") = none → check_server env name = false) ∧
    (∀ addr, env.cfg (name ++ "_server") = some addr → addr ≠ "" →
      env.create_store (scheme_addr name addr) = Except.error () →
      check_server env name = false) ∧
    (∀ addr store err, env.cfg (name ++ "_server") = some addr → addr ≠ "" →
      env.create_store (scheme_addr name addr) = Except.ok store →
      env.ping store = Except.error err →
      check_server env name = false) ∧
    (check_server env name = true ↔
      ∃ addr store b, env.cfg (name ++ "_server") = some addr ∧ addr ≠ "" ∧
        env.create_store (scheme_addr name addr) = Except.ok store ∧
        env.ping store = Except.ok b) := by
  refine ⟨fun h => ?_, fun addr h hne hcs => ?_,
    fun addr store err h hne hcs hp => ?_, ?_⟩
  · simp [check_server, h]
  · simp [check_server, h, hne, hcs]
  · simp [check_server, h, hne, hcs, hp]
  · constructor
    · intro htrue
      rcases hc : env.cfg (name ++ "_server") with _ | addr
      · simp [check_server, hc] at htrue
      · by_cases he : addr = ""
        · simp [check_server, hc, he] at htrue
        · rcases hs : env.create_store (scheme_addr name addr) with u | store
          · simp [check_server, hc, he, hs] at htrue
          · rcases hping : env.ping store with e | b
            · simp [check_server, hc, he, hs, hping] at htrue
            · exact ⟨addr, store, b, rfl, he, hs, hping⟩
    · rintro ⟨addr, store, b, hc, he, hs, hping⟩
      simp [check_server, hc, he, hs, hping]

/-- Witness for C1: an environment with no configured address yields
`false`; one whose store construction and ping succeed yields `true`. -/
theorem check_server_correct_witness :
    check_server (ProbeEnv.mk (fun _ => none) (fun _ => Except.error ())
      (fun _ => Except.error "refused")) "redis" = false ∧
    check_server (ProbeEnv.mk (fun _ => some "h") (fun _ => Except.ok 0)
      (fun _ => Except.ok true)) "redis" = true :=
  ⟨(check_server_correct (ProbeEnv.mk (fun _ => none) (fun _ => Except.error ())
      (fun _ => Except.error "refused")) "redis").1 rfl,
   (check_server_correct (ProbeEnv.mk (fun _ => some "h") (fun _ => Except.ok 0)
      (fun _ => Except.ok true)) "redis").2.2.2.mpr
     ⟨"h", 0, true, rfl, by decide, rfl, rfl⟩⟩

/-- Claim C10: `Task.get_task` returns `None` (not an exception) when
no row with the given id exists; with `remove=True` on an existing,
done task it deletes the row — the store afterwards holds exactly the
rows with other ids — and returns `None`; in every other existing-row
case it returns the row itself and leaves the store unchanged. -/
theorem get_task_correct (store : List DbTask) (id : String) (remove : Bool) :
    (store.find? (fun x => x.id == id) = none →
      get_task store id remove = (none, store)) ∧
    (∀ t, store.find? (fun x => x.id == id) = some t → remove = true →
      t.done = true →
      (get_task store id remove).1 = none ∧
      (get_task store id remove).2.find? (fun x => x.id == id) = none ∧
      (∀ u, u ∈ (get_task store id remove).2 ↔ u ∈ store ∧ u.id ≠ id)) ∧
    (∀ t, store.find? (fun x => x.id == id) = some t → (remove && t.done) = false →
      get_task store id remove = (some t, store)) := by
  refine ⟨fun h => ?_, fun t hf hr hd => ?_, fun t hf hrd => ?_⟩
  · simp [get_task, objects_get, h]
  · have hgt : get_task store id remove = (none, task_delete store id) := by
      simp [get_task, objects_get, hf, hr, hd]
    refine ⟨by simp [hgt], ?_, ?_⟩
    · rw [hgt]
      rw [List.find?_eq_none]
      intro x hx
      have hmem := List.mem_filter.mp hx
      simpa using hmem.2
    · intro u
      rw [hgt]
      simp only [task_delete]
      constructor
      · intro hu
        have hmem := List.mem_filter.mp hu
        exact ⟨hmem.1, by simpa using hmem.2⟩
      · intro hu
        exact List.mem_filter.mpr ⟨hu.1, by simpa using hu.2⟩
  · simp [get_task, objects_get, hf, hrd]

/-- Witness for C10: removal of an existing done task yields `None`
with the row gone; `remove=False` returns the row and keeps the store;
a missing id yields `None`. -/
theorem get_task_correct_witness :
    (get_task [DbTask.mk "t1" true] "t1" true).1 = none ∧
    (get_task [DbTask.mk "t1" true] "t1" true).2.find? (fun x => x.id == "t1") =
      none ∧
    get_task [DbTask.mk "t1" true] "t1" false =
      (some (DbTask.mk "t1" true), [DbTask.mk "t1" true]) ∧
    get_task [] "t1" false = (none, []) :=
  ⟨((get_task_correct [DbTask.mk "t1" true] "t1" true).2.1 (DbTask.mk "t1" true)
      (by decide) rfl rfl).1,
   ((get_task_correct [DbTask.mk "t1" true] "t1" true).2.1 (DbTask.mk "t1" true)
      (by decide) rfl rfl).2.1,
   (get_task_correct [DbTask.mk "t1" true] "t1" false).2.2 (DbTask.mk "t1" true)
      (by decide) rfl,
   (get_task_correct [] "t1" false).1 rfl⟩
